import Mathlib

/-!
# DriveDroid server — shallow embedding and verification

This file embeds the steering-simulation core of `src/server/server.py`
(`PWMSteeringController` and `DriveDroidServer`) as executable Lean
definitions and proves or refutes the frozen claims about it.

Modelling conventions:
* Python floats are modelled as exact rationals (`ℚ`); the claims are about
  the algorithm's threshold/duty-cycle structure, not about rounding of
  binary floating point.
* Side effects on the uinput devices (`keyboard_device.emit`,
  `gamepad_device.emit`) are modelled as values of an `Emission` trace type
  returned alongside the new state.  The `focus_target_window` best-effort
  side effect is not a device emission and is not traced.
* The cooperative-async PWM loop is modelled one cycle at a time: each cycle
  receives the snapshot of `_target_value` that the loop reads at the top of
  the iteration (line 112) and threads `_active_key` through.
* `asyncio.create_task` / task cancellation are modelled by giving each
  spawned loop instance a fresh id: `task` is the handle stored in
  `self._task`, `live_loops` the ids of loop instances that are alive.
-/

/-- The uinput key codes used by the server (`KEY_MAP` values plus the
steering keys), `server.py` lines 20-33. -/
inductive Key where
  | KEY_W
  | KEY_UP
  | KEY_S
  | KEY_DOWN
  | KEY_A
  | KEY_LEFT
  | KEY_D
  | KEY_RIGHT
  | KEY_SPACE
  deriving DecidableEq, Repr

/-- A device emission: `keyboard_device.emit(key, 1/0)` or
`gamepad_device.emit(uinput.ABS_X, v)`. -/
inductive Emission where
  | keyEmit (k : Key) (pressed : Bool)
  | axisEmit (v : ℤ)
  deriving DecidableEq, Repr

/-- `KEY_MAP` of `server.py` lines 20-33: logical action string to key;
`none` models `action not in KEY_MAP`. -/
def KEY_MAP : String → Option Key
  | "ACCELERATE_W" => some .KEY_W
  | "ACCELERATE_UP" => some .KEY_UP
  | "BRAKE_S" => some .KEY_S
  | "BRAKE_DOWN" => some .KEY_DOWN
  | "STEER_A" => some .KEY_A
  | "STEER_LEFT" => some .KEY_LEFT
  | "STEER_D" => some .KEY_D
  | "STEER_RIGHT" => some .KEY_RIGHT
  | "HANDBRAKE" => some .KEY_SPACE
  | _ => none

/-- `ABS_MAX = 32767` (`server.py` line 16). -/
def ABS_MAX : ℤ := 32767

/-- `CYCLE_S = 0.050` (`server.py` line 54). -/
def CYCLE_S : ℚ := 0.050

/-- `CENTER_THRESHOLD = 0.04` (`server.py` line 57). -/
def CENTER_THRESHOLD : ℚ := 0.04

/-- `FULL_LOCK_THRESHOLD = 0.97` (`server.py` line 60). -/
def FULL_LOCK_THRESHOLD : ℚ := 0.97

/-- `MIN_OFF_S = 0.008` (`server.py` line 63). -/
def MIN_OFF_S : ℚ := 0.008

/-- Python `int()` applied to a rational: truncation toward zero, as in
`int(value * ABS_MAX)` (`server.py` line 306).  For a rational in lowest
terms, truncating division of numerator by denominator. -/
def int_of_rat (q : ℚ) : ℤ := Int.tdiv q.num (q.den : ℤ)

/-- State of one `PWMSteeringController` (`server.py` lines 65-77), plus an
explicit account of spawned loop-task instances:
`task` is `self._task` (the handle most recently stored), `live_loops` the
ids of loop instances spawned and not yet terminated, `next_task_id` a
fresh-id counter. -/
structure PWMSteeringController where
  left_key : Key
  right_key : Key
  target_value : ℚ
  active_key : Option Key
  running : Bool
  task : Option Nat
  live_loops : List Nat
  next_task_id : Nat
  deriving DecidableEq, Repr

namespace PWMSteeringController

/-- `__init__` (`server.py` lines 65-77). -/
def init (lk rk : Key) : PWMSteeringController :=
  { left_key := lk
    right_key := rk
    target_value := 0
    active_key := none
    running := false
    task := none
    live_loops := []
    next_task_id := 0 }

/-- `set_value` (`server.py` lines 79-81): clamp to [-1, 1] and store. -/
def set_value (p : PWMSteeringController) (v : ℚ) : PWMSteeringController :=
  { p with target_value := max (-1) (min 1 v) }

/-- `start` (`server.py` lines 83-86): unconditionally set `_running = True`
and spawn a fresh `_pwm_loop` task, overwriting `self._task`.  There is no
already-running guard in the source; a previously spawned loop instance is
neither cancelled nor awaited here, so it stays in `live_loops`. -/
def start (p : PWMSteeringController) : PWMSteeringController :=
  { p with
      running := true
      task := some p.next_task_id
      live_loops := p.next_task_id :: p.live_loops
      next_task_id := p.next_task_id + 1 }

/-- `_release_current` (`server.py` lines 105-108) acting on the
`_active_key` field: emit key-up for the held key, if any. -/
def release_current (ak : Option Key) : Option Key × List Emission :=
  match ak with
  | some k => (none, [Emission.keyEmit k false])
  | none => (none, [])

/-- `_press` (`server.py` lines 99-103): if `key` is not the currently held
key, release the held one, emit key-down for `key` and hold it; otherwise do
nothing. -/
def press (ak : Option Key) (key : Key) : Option Key × List Emission :=
  if ak = some key then (ak, [])
  else (some key, (release_current ak).2 ++ [Emission.keyEmit key true])

/-- `stop` (`server.py` lines 88-97): set `_running = False`, cancel and
await `self._task` (removing that instance from the live set), then
`_release_current()`. -/
def stop (p : PWMSteeringController) : PWMSteeringController × List Emission :=
  let p1 : PWMSteeringController :=
    { p with
        running := false
        live_loops := match p.task with
          | some t => p.live_loops.erase t
          | none => p.live_loops }
  (({ p1 with active_key := (release_current p1.active_key).1 }),
   (release_current p1.active_key).2)

end PWMSteeringController

/-- One iteration of `_pwm_loop` (`server.py` lines 110-142) for the left
and right keys `lk`, `rk`: takes the snapshot `value` of `_target_value`
read at line 112 and the current `_active_key`, returns the new
`_active_key` and the emissions of this cycle. -/
def pwm_cycle (lk rk : Key) (ak : Option Key) (value : ℚ) :
    Option Key × List Emission :=
  if |value| < CENTER_THRESHOLD then
    PWMSteeringController.release_current ak
  else if FULL_LOCK_THRESHOLD ≤ |value| then
    PWMSteeringController.press ak (if value < 0 then lk else rk)
  else
    ((PWMSteeringController.release_current
        (PWMSteeringController.press ak (if value < 0 then lk else rk)).1).1,
     (PWMSteeringController.press ak (if value < 0 then lk else rk)).2 ++
       (PWMSteeringController.release_current
         (PWMSteeringController.press ak (if value < 0 then lk else rk)).1).2)

/-- A run of consecutive `_pwm_loop` cycles over the list of target
snapshots read at the top of each iteration. -/
def pwm_run (lk rk : Key) (ak : Option Key) : List ℚ → Option Key × List Emission
  | [] => (ak, [])
  | v :: vs =>
      ((pwm_run lk rk (pwm_cycle lk rk ak v).1 vs).1,
       (pwm_cycle lk rk ak v).2 ++ (pwm_run lk rk (pwm_cycle lk rk ak v).1 vs).2)

/-- The on/off time computation of the proportional branch of `_pwm_loop`
(`server.py` lines 129-136) as a function of the magnitude `mag`:
`on_time = CYCLE_S * mag`, `off_time = CYCLE_S - on_time`, with `off_time`
floored at `MIN_OFF_S` and `on_time` recomputed when the floor applies. -/
def on_off (mag : ℚ) : ℚ × ℚ :=
  if CYCLE_S - CYCLE_S * mag < MIN_OFF_S then
    (CYCLE_S - MIN_OFF_S, MIN_OFF_S)
  else
    (CYCLE_S * mag, CYCLE_S - CYCLE_S * mag)

/-- The key-down duration of one proportional cycle. -/
def onTime (mag : ℚ) : ℚ := (on_off mag).1

/-- The key-up duration of one proportional cycle. -/
def offTime (mag : ℚ) : ℚ := (on_off mag).2

/-- Identifier of one of the two engines constructed in `setup_uinput`
(`server.py` lines 233-238): `self.pwm_ad` and `self.pwm_arrows`. -/
inductive EngineId where
  | ad
  | arrows
  deriving DecidableEq, Repr

/-- Record of one `stop()` or `start()` invocation on an engine, for
counting stop/start pairs during mode switches. -/
inductive EngineCall where
  | stopCall (e : EngineId)
  | startCall (e : EngineId)
  deriving DecidableEq, Repr

/-- Number of `stop()` invocations in a call log. -/
def countStops (l : List EngineCall) : Nat :=
  l.countP (fun c => match c with
    | .stopCall _ => true
    | .startCall _ => false)

/-- Number of `start()` invocations in a call log. -/
def countStarts (l : List EngineCall) : Nat :=
  l.countP (fun c => match c with
    | .stopCall _ => false
    | .startCall _ => true)

/-- The session-relevant state of `DriveDroidServer` (`server.py` lines
146-160): the `ButtonKeySet` (`self.active_keys`, a set kept here as a
duplicate-free list since insertion is guarded), the last emitted gamepad
axis integer, the active-engine reference, and the two engine states. -/
structure DriveDroidServer where
  active_keys : List Key
  last_steer_value : ℤ
  active_pwm : Option EngineId
  pwm_ad : PWMSteeringController
  pwm_arrows : PWMSteeringController
  deriving DecidableEq, Repr

/-- Dereference an engine id against the server's engine fields. -/
def getEngine (s : DriveDroidServer) : EngineId → PWMSteeringController
  | .ad => s.pwm_ad
  | .arrows => s.pwm_arrows

/-- Store back an engine state. -/
def setEngine (s : DriveDroidServer) : EngineId → PWMSteeringController → DriveDroidServer
  | .ad, p => { s with pwm_ad := p }
  | .arrows, p => { s with pwm_arrows := p }

namespace DriveDroidServer

/-- `__init__` plus the engine construction of `setup_uinput` (`server.py`
lines 146-160 and 233-238). -/
def init : DriveDroidServer :=
  { active_keys := []
    last_steer_value := 0
    active_pwm := none
    pwm_ad := PWMSteeringController.init .KEY_A .KEY_D
    pwm_arrows := PWMSteeringController.init .KEY_LEFT .KEY_RIGHT }

end DriveDroidServer

/-- The connect half of `handle_client` (`server.py` lines 252-255): default
to A/D PWM steering when a client connects and no engine is active. -/
def on_connect (s : DriveDroidServer) : DriveDroidServer :=
  if s.active_pwm = none then
    setEngine { s with active_pwm := some EngineId.ad } EngineId.ad
      (PWMSteeringController.start (getEngine s EngineId.ad))
  else s

/-- An inbound command record, `data` in `process_command`: the fields read
through `data.get`, each possibly absent.  A non-numeric `value` is a decode
failure upstream of this dispatch and is not represented. -/
structure Command where
  action : Option String
  value : Option ℚ
  state : Option String
  mode : Option String
  deriving DecidableEq, Repr

/-- The STEER branch of `process_command` (`server.py` lines 304-311):
clamp, map to the integer axis range by truncation, and emit only when the
new integer differs from the last emitted one by more than 200. -/
def steer_step (s : DriveDroidServer) (v : ℚ) : DriveDroidServer × List Emission :=
  if 200 < |int_of_rat (max (-1) (min 1 v) * (ABS_MAX : ℚ)) - s.last_steer_value| then
    ({ s with last_steer_value := int_of_rat (max (-1) (min 1 v) * (ABS_MAX : ℚ)) },
     [Emission.axisEmit (int_of_rat (max (-1) (min 1 v) * (ABS_MAX : ℚ)))])
  else (s, [])

/-- Mode-string resolution of `_switch_pwm_mode` (`server.py` lines
347-352): `KEYBOARD_AD` and `KEYBOARD_ARROWS` name engines, anything else
(e.g. `GAMEPAD`) resolves to no engine. -/
def resolve_mode (mode : String) : Option EngineId :=
  if mode = "KEYBOARD_AD" then some EngineId.ad
  else if mode = "KEYBOARD_ARROWS" then some EngineId.arrows
  else none

/-- `_switch_pwm_mode` (`server.py` lines 345-364): no-op when the resolved
engine is the active one; otherwise stop the active engine (if any), install
the new reference, and start it (if any).  Returns the new state, the device
emissions (from `stop`'s terminal release), and the log of engine
stop/start invocations. -/
def switch_pwm_mode (s : DriveDroidServer) (mode : String) :
    DriveDroidServer × List Emission × List EngineCall :=
  if resolve_mode mode = s.active_pwm then (s, [], [])
  else
    match s.active_pwm with
    | some e =>
        (match resolve_mode mode with
         | some e2 =>
            (setEngine
              { setEngine s e (PWMSteeringController.stop (getEngine s e)).1 with
                  active_pwm := resolve_mode mode } e2
              (PWMSteeringController.start
                (getEngine
                  { setEngine s e (PWMSteeringController.stop (getEngine s e)).1 with
                      active_pwm := resolve_mode mode } e2)),
             (PWMSteeringController.stop (getEngine s e)).2,
             [EngineCall.stopCall e, EngineCall.startCall e2])
         | none =>
            ({ setEngine s e (PWMSteeringController.stop (getEngine s e)).1 with
                 active_pwm := none },
             (PWMSteeringController.stop (getEngine s e)).2,
             [EngineCall.stopCall e]))
    | none =>
        (match resolve_mode mode with
         | some e2 =>
            (setEngine { s with active_pwm := resolve_mode mode } e2
              (PWMSteeringController.start
                (getEngine { s with active_pwm := resolve_mode mode } e2)),
             [], [EngineCall.startCall e2])
         | none => (s, [], []))

/-- `release_all_keys` (`server.py` lines 366-370): emit key-up for every
key in the `ButtonKeySet` and clear it. -/
def release_all_keys (s : DriveDroidServer) : DriveDroidServer × List Emission :=
  ({ s with active_keys := [] },
   s.active_keys.map (fun k => Emission.keyEmit k false))

/-- `_cleanup_on_disconnect` (`server.py` lines 272-281): stop the active
engine and clear its reference, emit the centering axis value and reset the
last-axis state, then release all button keys. -/
def cleanup_on_disconnect (s : DriveDroidServer) : DriveDroidServer × List Emission :=
  match s.active_pwm with
  | some e =>
      ((release_all_keys
          { setEngine s e (PWMSteeringController.stop (getEngine s e)).1 with
              active_pwm := none, last_steer_value := 0 }).1,
       (PWMSteeringController.stop (getEngine s e)).2 ++ [Emission.axisEmit 0] ++
         (release_all_keys
           { setEngine s e (PWMSteeringController.stop (getEngine s e)).1 with
               active_pwm := none, last_steer_value := 0 }).2)
  | none =>
      ((release_all_keys { s with last_steer_value := 0 }).1,
       [Emission.axisEmit 0] ++
         (release_all_keys { s with last_steer_value := 0 }).2)

/-- `process_command` (`server.py` lines 283-343): dispatch over STEER,
STEER_PWM, STEER_MODE and button commands in source order; anything else is
logged and ignored.  Returns the new server state and the device
emissions. -/
def process_command (s : DriveDroidServer) (c : Command) :
    DriveDroidServer × List Emission :=
  if c.action = some "STEER" then
    steer_step s (c.value.getD 0)
  else if c.action = some "STEER_PWM" then
    match s.active_pwm with
    | some e =>
        (setEngine s e
          (PWMSteeringController.set_value (getEngine s e) (c.value.getD 0)), [])
    | none => (s, [])
  else if c.action = some "STEER_MODE" then
    ((switch_pwm_mode s (c.mode.getD "KEYBOARD_AD")).1,
     (switch_pwm_mode s (c.mode.getD "KEYBOARD_AD")).2.1)
  else
    match Option.bind c.action KEY_MAP with
    | none => (s, [])
    | some key_code =>
        if c.state = some "DOWN" then
          (if key_code ∈ s.active_keys then (s, [])
           else ({ s with active_keys := key_code :: s.active_keys },
                 [Emission.keyEmit key_code true]))
        else if c.state = some "UP" then
          (if key_code ∈ s.active_keys then
             ({ s with active_keys := s.active_keys.erase key_code },
              [Emission.keyEmit key_code false])
           else (s, []))
        else (s, [])

/-- A `STEER` command carrying value `v`. -/
def steerCmd (v : ℚ) : Command :=
  { action := some "STEER", value := some v, state := none, mode := none }

/-- A `STEER_PWM` command carrying value `v`. -/
def steerPwmCmd (v : ℚ) : Command :=
  { action := some "STEER_PWM", value := some v, state := none, mode := none }

/-- A `STEER_MODE` command carrying mode field `m` (possibly absent). -/
def steerModeCmd (m : Option String) : Command :=
  { action := some "STEER_MODE", value := none, state := none, mode := m }

/-- One abstract operation on an engine's held-key state: a `_press(k)` or a
`_release_current()` call, the only two ways the loop touches the
keyboard. -/
inductive EngOp where
  | pressOp (k : Key)
  | releaseOp
  deriving DecidableEq, Repr

/-- Run a sequence of `_press` / `_release_current` calls from a held-key
state, collecting all emissions. -/
def run_ops (ak : Option Key) : List EngOp → Option Key × List Emission
  | [] => (ak, [])
  | op :: ops =>
      match op with
      | .pressOp k =>
          ((run_ops (PWMSteeringController.press ak k).1 ops).1,
           (PWMSteeringController.press ak k).2 ++
             (run_ops (PWMSteeringController.press ak k).1 ops).2)
      | .releaseOp =>
          ((run_ops (PWMSteeringController.release_current ak).1 ops).1,
           (PWMSteeringController.release_current ak).2 ++
             (run_ops (PWMSteeringController.release_current ak).1 ops).2)

/-- Effect of one emission on the downstream device's key-down map. -/
def applyEv (down : Key → Bool) : Emission → Key → Bool
  | .keyEmit k b => fun x => if x = k then b else down x
  | .axisEmit _ => down

/-- Effect of an emission trace on the downstream device's key-down map. -/
def applyEvs (down : Key → Bool) (evs : List Emission) : Key → Bool :=
  evs.foldl applyEv down

/-- The held-key bookkeeping (`_active_key`) agrees with the downstream
device's key-down map: exactly the tracked key (if any) is down. -/
def Agrees (ak : Option Key) (down : Key → Bool) : Prop :=
  ∀ k, down k = true ↔ ak = some k

/-- A concrete mid-session state: a client connected (default A/D engine
running) and the accelerate button held. -/
def sampleSession : DriveDroidServer :=
  { on_connect DriveDroidServer.init with active_keys := [Key.KEY_W] }

/-- The server state right after a client connects to a fresh server. -/
def connected0 : DriveDroidServer := on_connect DriveDroidServer.init

lemma stop_running (p : PWMSteeringController) :
    (PWMSteeringController.stop p).1.running = false := rfl

lemma getEngine_setEngine_same (s : DriveDroidServer) (e : EngineId)
    (p : PWMSteeringController) : getEngine (setEngine s e p) e = p := by
  cases e <;> rfl

lemma setEngine_active_pwm (s : DriveDroidServer) (e : EngineId)
    (p : PWMSteeringController) : (setEngine s e p).active_pwm = s.active_pwm := by
  cases e <;> rfl

lemma setEngine_active_keys (s : DriveDroidServer) (e : EngineId)
    (p : PWMSteeringController) : (setEngine s e p).active_keys = s.active_keys := by
  cases e <;> rfl

lemma steer_step_active_pwm (s : DriveDroidServer) (v : ℚ) :
    (steer_step s v).1.active_pwm = s.active_pwm := by
  unfold steer_step; split_ifs <;> rfl

/-- C2 counterexample: calling `start()` twice in a row on a fresh engine
leaves two loop-task instances alive at once and does change the state (the
task handle and spawn counter move), so `start()` while running is not a
no-op and two loop instances do run concurrently. -/
theorem C2_counterexample :
    (PWMSteeringController.start (PWMSteeringController.start
        (PWMSteeringController.init .KEY_A .KEY_D))).live_loops.length = 2 ∧
      PWMSteeringController.start (PWMSteeringController.start
          (PWMSteeringController.init .KEY_A .KEY_D)) ≠
        PWMSteeringController.start (PWMSteeringController.init .KEY_A .KEY_D) := by
  decide

/-- C2 (amended): `start()` has no already-running guard.  Called while the
engine is running, it spawns one additional loop instance (the previous one
stays alive, since `_running` remains true) and overwrites the stored task
handle with the new task. -/
theorem C2_start_not_guarded (p : PWMSteeringController) (h : p.running = true) :
    (PWMSteeringController.start p).live_loops.length = p.live_loops.length + 1 ∧
      (PWMSteeringController.start p).task = some p.next_task_id ∧
      (PWMSteeringController.start p).running = true := by
  simp [PWMSteeringController.start]

/-- Witness for `C2_start_not_guarded` at a started fresh engine. -/
theorem C2_start_not_guarded_witness :
    (PWMSteeringController.start (PWMSteeringController.start
        (PWMSteeringController.init .KEY_A .KEY_D))).live_loops.length =
      (PWMSteeringController.start
        (PWMSteeringController.init .KEY_A .KEY_D)).live_loops.length + 1 ∧
      (PWMSteeringController.start (PWMSteeringController.start
          (PWMSteeringController.init .KEY_A .KEY_D))).task =
        some (PWMSteeringController.start
          (PWMSteeringController.init .KEY_A .KEY_D)).next_task_id ∧
      (PWMSteeringController.start (PWMSteeringController.start
          (PWMSteeringController.init .KEY_A .KEY_D))).running = true :=
  C2_start_not_guarded
    (PWMSteeringController.start (PWMSteeringController.init .KEY_A .KEY_D)) rfl

/-- C3: for every magnitude in `[CENTER_THRESHOLD, FULL_LOCK_THRESHOLD)`,
the proportional branch's on/off times sum exactly to `CYCLE_S` (the
recomputation after the `MIN_OFF_S` floor preserves the sum), and the
on-time is monotonically increasing in the magnitude. -/
theorem C3_on_off_sum_monotone (m1 m2 : ℚ) (h1 : CENTER_THRESHOLD ≤ m1)
    (h2 : m2 < FULL_LOCK_THRESHOLD) (h12 : m1 ≤ m2) :
    onTime m1 + offTime m1 = CYCLE_S ∧ onTime m1 ≤ onTime m2 := by
  constructor
  · unfold onTime offTime on_off
    split_ifs <;> ring
  · have hC : (0 : ℚ) < CYCLE_S := by norm_num [CYCLE_S]
    have hmul : CYCLE_S * m1 ≤ CYCLE_S * m2 := mul_le_mul_of_nonneg_left h12 hC.le
    unfold onTime on_off
    split_ifs with ha hb
    all_goals dsimp only
    · exact le_refl _
    · linarith
    · linarith
    · exact hmul

/-- Witness for `C3_on_off_sum_monotone` at magnitude 1/2. -/
theorem C3_on_off_sum_monotone_witness :
    onTime (1 / 2) + offTime (1 / 2) = CYCLE_S ∧ onTime (1 / 2) ≤ onTime (1 / 2) :=
  C3_on_off_sum_monotone (1 / 2) (1 / 2)
    (by norm_num [CENTER_THRESHOLD]) (by norm_num [FULL_LOCK_THRESHOLD]) le_rfl

/-- C4: the STEER debounce.  If the clamped, integer-mapped value differs
from the stored last emitted value by at most 200, no emission occurs and
the stored value is unchanged; if it differs by more than 200, the axis
value is emitted and stored. -/
theorem C4_steer_debounce (s : DriveDroidServer) (v : ℚ) :
    (|int_of_rat (max (-1) (min 1 v) * (ABS_MAX : ℚ)) - s.last_steer_value| ≤ 200 →
        process_command s (steerCmd v) = (s, [])) ∧
      (200 < |int_of_rat (max (-1) (min 1 v) * (ABS_MAX : ℚ)) - s.last_steer_value| →
        (process_command s (steerCmd v)).1.last_steer_value
            = int_of_rat (max (-1) (min 1 v) * (ABS_MAX : ℚ)) ∧
          (process_command s (steerCmd v)).2
            = [Emission.axisEmit
                (int_of_rat (max (-1) (min 1 v) * (ABS_MAX : ℚ)))]) := by
  have hpc : process_command s (steerCmd v) = steer_step s v := by
    simp [process_command, steerCmd]
  constructor
  · intro h
    rw [hpc]
    unfold steer_step
    rw [if_neg (not_lt.mpr h)]
  · intro h
    rw [hpc]
    unfold steer_step
    rw [if_pos h]
    exact ⟨rfl, rfl⟩

/-- Witness for `C4_steer_debounce`: a full-right steer from center emits
32767; a centered steer from center (mapped integer 0) is debounced. -/
theorem C4_steer_debounce_witness :
    ((process_command DriveDroidServer.init (steerCmd 1)).1.last_steer_value = 32767 ∧
      (process_command DriveDroidServer.init (steerCmd 1)).2
        = [Emission.axisEmit 32767]) ∧
      process_command DriveDroidServer.init (steerCmd 0)
        = (DriveDroidServer.init, []) := by
  constructor
  · have h := (C4_steer_debounce DriveDroidServer.init 1).2
      (by norm_num [int_of_rat, ABS_MAX, DriveDroidServer.init])
    have he : int_of_rat (max (-1) (min 1 (1 : ℚ)) * (ABS_MAX : ℚ)) = 32767 := by
      norm_num [int_of_rat, ABS_MAX]
    rw [he] at h
    exact h
  · exact (C4_steer_debounce DriveDroidServer.init 0).1
      (by norm_num [int_of_rat, ABS_MAX, DriveDroidServer.init])

lemma not_center_of_lock {v : ℚ} (hv : FULL_LOCK_THRESHOLD ≤ |v|) :
    ¬ |v| < CENTER_THRESHOLD := by
  have h : (CENTER_THRESHOLD : ℚ) ≤ FULL_LOCK_THRESHOLD := by
    norm_num [CENTER_THRESHOLD, FULL_LOCK_THRESHOLD]
  exact not_lt.mpr (le_trans h hv)

lemma pwm_cycle_lock (lk rk : Key) (ak : Option Key) {v : ℚ}
    (hv : FULL_LOCK_THRESHOLD ≤ |v|) :
    pwm_cycle lk rk ak v
      = PWMSteeringController.press ak (if v < 0 then lk else rk) := by
  unfold pwm_cycle
  rw [if_neg (not_center_of_lock hv), if_pos hv]

lemma pwm_cycle_center (lk rk : Key) (ak : Option Key) {v : ℚ}
    (hv : |v| < CENTER_THRESHOLD) :
    pwm_cycle lk rk ak v = PWMSteeringController.release_current ak := by
  unfold pwm_cycle
  rw [if_pos hv]

lemma press_fst (ak : Option Key) (k : Key) :
    (PWMSteeringController.press ak k).1 = some k := by
  unfold PWMSteeringController.press
  split_ifs with h
  · exact h
  · rfl

lemma press_same (k : Key) :
    PWMSteeringController.press (some k) k = (some k, []) := by
  simp [PWMSteeringController.press]

lemma pwm_run_hold (lk rk : Key) (v : ℚ) (vs : List ℚ)
    (h : ∀ u ∈ vs, FULL_LOCK_THRESHOLD ≤ |u| ∧ (u < 0 ↔ v < 0)) :
    pwm_run lk rk (some (if v < 0 then lk else rk)) vs
      = (some (if v < 0 then lk else rk), []) := by
  induction vs with
  | nil => rfl
  | cons u vs ih =>
      obtain ⟨hu, hiff⟩ := h u (List.mem_cons_self u vs)
      have hkey : (if u < 0 then lk else rk) = (if v < 0 then lk else rk) :=
        if_congr hiff rfl rfl
      have hc : pwm_cycle lk rk (some (if v < 0 then lk else rk)) u
          = (some (if v < 0 then lk else rk), []) := by
        rw [pwm_cycle_lock lk rk _ hu, hkey, press_same]
      have ih2 := ih (fun u2 hu2 => h u2 (List.mem_cons_of_mem u hu2))
      simp [pwm_run, hc, ih2]

/-- C6: across a run of consecutive PWM cycles whose snapshot magnitudes
stay at or above `FULL_LOCK_THRESHOLD` with an unchanging sign, the chosen
key is held after the first cycle and the whole run emits nothing beyond
the first cycle's emissions: the key stays continuously pressed with no
intervening release. -/
theorem C6_full_lock_hold (lk rk : Key) (ak : Option Key) (v : ℚ) (vs : List ℚ)
    (h : ∀ u ∈ v :: vs, FULL_LOCK_THRESHOLD ≤ |u| ∧ (u < 0 ↔ v < 0)) :
    (pwm_cycle lk rk ak v).1 = some (if v < 0 then lk else rk) ∧
      pwm_run lk rk ak (v :: vs)
        = (some (if v < 0 then lk else rk), (pwm_cycle lk rk ak v).2) := by
  have hv := (h v (List.mem_cons_self v vs)).1
  have h1 : (pwm_cycle lk rk ak v).1 = some (if v < 0 then lk else rk) := by
    rw [pwm_cycle_lock lk rk ak hv]
    exact press_fst ak (if v < 0 then lk else rk)
  refine ⟨h1, ?_⟩
  have hrest := pwm_run_hold lk rk v vs (fun u hu => h u (List.mem_cons_of_mem v hu))
  simp [pwm_run, h1, hrest]

/-- Witness for `C6_full_lock_hold`: target pinned at full right lock for
three cycles from an idle engine. -/
theorem C6_full_lock_hold_witness :
    (pwm_cycle .KEY_A .KEY_D none 1).1
        = some (if (1 : ℚ) < 0 then Key.KEY_A else Key.KEY_D) ∧
      pwm_run .KEY_A .KEY_D none [1, 1, 0.98]
        = (some (if (1 : ℚ) < 0 then Key.KEY_A else Key.KEY_D),
           (pwm_cycle .KEY_A .KEY_D none 1).2) :=
  C6_full_lock_hold .KEY_A .KEY_D none 1 [1, 0.98] (by
    simp only [List.mem_cons, List.not_mem_nil, or_false]
    rintro u (rfl | rfl | rfl) <;> rw [abs_of_nonneg (by norm_num)] <;>
      norm_num [FULL_LOCK_THRESHOLD])

lemma pwm_run_center_no_press (lk rk : Key) (n : ℕ) :
    ∀ (a : Option Key) (k : Key),
      Emission.keyEmit k true ∉ (pwm_run lk rk a (List.replicate n 0)).2 := by
  induction n with
  | zero => intro a k; simp [pwm_run]
  | succ n ih =>
      intro a k
      have hc : pwm_cycle lk rk a 0 = PWMSteeringController.release_current a :=
        pwm_cycle_center lk rk a (by norm_num [CENTER_THRESHOLD])
      rw [List.replicate_succ]
      intro hmem
      rcases List.mem_append.mp hmem with hm | hm
      · rw [hc] at hm
        cases a <;> simp [PWMSteeringController.release_current] at hm
      · rw [hc] at hm
        exact ih (PWMSteeringController.release_current a).1 k hm

/-- C7: in a cycle whose snapshot magnitude is below `CENTER_THRESHOLD`,
any held steering key is released and no key press is emitted; and with the
target held at 0.0 no steering key is ever pressed over any number of
cycles. -/
theorem C7_center_no_press (lk rk : Key) (ak : Option Key) (v : ℚ)
    (h : |v| < CENTER_THRESHOLD) :
    (pwm_cycle lk rk ak v).1 = none ∧
      (∀ k, Emission.keyEmit k true ∉ (pwm_cycle lk rk ak v).2) ∧
      (∀ k, ak = some k → Emission.keyEmit k false ∈ (pwm_cycle lk rk ak v).2) ∧
      (∀ (n : ℕ) (a : Option Key) (k : Key),
          Emission.keyEmit k true ∉ (pwm_run lk rk a (List.replicate n 0)).2) := by
  rw [pwm_cycle_center lk rk ak h]
  refine ⟨?_, ?_, ?_, fun n => pwm_run_center_no_press lk rk n⟩
  · cases ak <;> rfl
  · intro k
    cases ak <;> simp [PWMSteeringController.release_current]
  · intro k hk
    rw [hk]
    simp [PWMSteeringController.release_current]

/-- Witness for `C7_center_no_press`: centered target with the left key
held releases it and presses nothing. -/
theorem C7_center_no_press_witness :
    (pwm_cycle .KEY_A .KEY_D (some .KEY_A) 0).1 = none ∧
      Emission.keyEmit Key.KEY_A false ∈ (pwm_cycle .KEY_A .KEY_D (some .KEY_A) 0).2 :=
  ⟨(C7_center_no_press .KEY_A .KEY_D (some .KEY_A) 0
      (by norm_num [CENTER_THRESHOLD])).1,
   (C7_center_no_press .KEY_A .KEY_D (some .KEY_A) 0
      (by norm_num [CENTER_THRESHOLD])).2.2.1 Key.KEY_A rfl⟩

lemma applyEvs_append (d : Key → Bool) (l1 l2 : List Emission) :
    applyEvs d (l1 ++ l2) = applyEvs (applyEvs d l1) l2 := by
  simp [applyEvs, List.foldl_append]

lemma release_current_agrees (ak : Option Key) (d : Key → Bool) (h : Agrees ak d) :
    Agrees (PWMSteeringController.release_current ak).1
      (applyEvs d (PWMSteeringController.release_current ak).2) := by
  cases ak with
  | none => simpa [PWMSteeringController.release_current, applyEvs] using h
  | some k2 =>
      intro k
      simp only [PWMSteeringController.release_current, applyEvs, List.foldl_cons,
        List.foldl_nil, applyEv]
      constructor
      · intro hk
        by_cases hx : k = k2
        · rw [if_pos hx] at hk
          exact absurd hk (by simp)
        · rw [if_neg hx] at hk
          exact absurd (Option.some.inj ((h k).mp hk)) (fun e => hx e.symm)
      · intro hk
        exact absurd hk (by simp)

lemma press_agrees (ak : Option Key) (key : Key) (d : Key → Bool) (h : Agrees ak d) :
    Agrees (PWMSteeringController.press ak key).1
      (applyEvs d (PWMSteeringController.press ak key).2) := by
  unfold PWMSteeringController.press
  split_ifs with he
  · simpa [applyEvs] using h
  · cases ak with
    | none =>
        intro k
        simp only [PWMSteeringController.release_current, applyEvs, List.nil_append,
          List.foldl_cons, List.foldl_nil, applyEv]
        by_cases hx : k = key
        · simp [hx]
        · rw [if_neg hx]
          constructor
          · intro hk
            exact absurd ((h k).mp hk) (by simp)
          · intro hk
            exact absurd (Option.some.inj hk) (fun e => hx e.symm)
    | some k2 =>
        intro k
        simp only [PWMSteeringController.release_current, applyEvs, List.cons_append,
          List.nil_append, List.foldl_cons, List.foldl_nil, applyEv]
        by_cases hx : k = key
        · simp [hx]
        · rw [if_neg hx]
          by_cases hy : k = k2
          · rw [if_pos hy]
            constructor
            · intro hk
              exact absurd hk (by simp)
            · intro hk
              exact absurd (Option.some.inj hk) (fun e => hx e.symm)
          · rw [if_neg hy]
            constructor
            · intro hk
              exact absurd (Option.some.inj ((h k).mp hk)) (fun e => hy e.symm)
            · intro hk
              exact absurd (Option.some.inj hk) (fun e => hx e.symm)

lemma run_ops_agrees (ops : List EngOp) :
    ∀ (ak : Option Key) (d : Key → Bool), Agrees ak d →
      Agrees (run_ops ak ops).1 (applyEvs d (run_ops ak ops).2) := by
  induction ops with
  | nil => intro ak d h; simpa [run_ops, applyEvs] using h
  | cons op ops ih =>
      intro ak d h
      cases op with
      | pressOp k =>
          rw [run_ops]
          dsimp only
          rw [applyEvs_append]
          exact ih (PWMSteeringController.press ak k).1 _ (press_agrees ak k d h)
      | releaseOp =>
          rw [run_ops]
          dsimp only
          rw [applyEvs_append]
          exact ih (PWMSteeringController.release_current ak).1 _
            (release_current_agrees ak d h)

/-- C8: starting from no held key, after any sequence of `_press` /
`_release_current` calls at most one key is down on the device; pressing
the held key emits nothing; pressing a different key emits the release of
the old key before the press of the new one. -/
theorem C8_one_key_held (ops : List EngOp) :
    (∀ k1 k2 : Key,
        applyEvs (fun _ => false) (run_ops none ops).2 k1 = true →
        applyEvs (fun _ => false) (run_ops none ops).2 k2 = true → k1 = k2) ∧
      (∀ k : Key, PWMSteeringController.press (some k) k = (some k, [])) ∧
      (∀ k k2 : Key, k ≠ k2 →
        PWMSteeringController.press (some k2) k
          = (some k, [Emission.keyEmit k2 false, Emission.keyEmit k true])) := by
  refine ⟨?_, fun k => press_same k, ?_⟩
  · have h0 : Agrees none (fun _ => false) := fun k => by simp
    have h := run_ops_agrees ops none (fun _ => false) h0
    intro k1 k2 hk1 hk2
    have e1 := (h k1).mp hk1
    have e2 := (h k2).mp hk2
    rw [e1] at e2
    exact Option.some.inj e2
  · intro k k2 hne
    unfold PWMSteeringController.press
    rw [if_neg (fun hcon : some k2 = some k => hne (Option.some.inj hcon).symm)]
    rfl

/-- Witness for `C8_one_key_held`: press left then right; only the right
key ends up held, and the two press shapes evaluate as stated. -/
theorem C8_one_key_held_witness :
    Key.KEY_D = Key.KEY_D ∧
      PWMSteeringController.press (some Key.KEY_A) Key.KEY_A = (some Key.KEY_A, []) ∧
      PWMSteeringController.press (some Key.KEY_A) Key.KEY_D
        = (some Key.KEY_D,
           [Emission.keyEmit Key.KEY_A false, Emission.keyEmit Key.KEY_D true]) :=
  ⟨(C8_one_key_held [EngOp.pressOp Key.KEY_A, EngOp.pressOp Key.KEY_D]).1
      Key.KEY_D Key.KEY_D (by decide) (by decide),
   (C8_one_key_held [EngOp.pressOp Key.KEY_A, EngOp.pressOp Key.KEY_D]).2.1 Key.KEY_A,
   (C8_one_key_held [EngOp.pressOp Key.KEY_A, EngOp.pressOp Key.KEY_D]).2.2
      Key.KEY_D Key.KEY_A (by decide)⟩

/-- C1: after `_cleanup_on_disconnect` runs from any preceding session
state, the `ButtonKeySet` is empty with a key-up emitted for every key that
was in it, the active engine (if any) is stopped with its reference
cleared, and the last-axis state is reset to center with a centering axis
value emitted. -/
theorem C1_disconnect_cleanup (s : DriveDroidServer) :
    (cleanup_on_disconnect s).1.active_keys = [] ∧
      (∀ k, k ∈ s.active_keys →
          Emission.keyEmit k false ∈ (cleanup_on_disconnect s).2) ∧
      (∀ e, s.active_pwm = some e →
          (getEngine (cleanup_on_disconnect s).1 e).running = false) ∧
      (cleanup_on_disconnect s).1.active_pwm = none ∧
      (cleanup_on_disconnect s).1.last_steer_value = 0 ∧
      Emission.axisEmit 0 ∈ (cleanup_on_disconnect s).2 := by
  rcases hap : s.active_pwm with _ | e
  · refine ⟨?_, ?_, ?_, ?_, ?_, ?_⟩
    · simp [cleanup_on_disconnect, hap, release_all_keys]
    · intro k hk
      simp only [cleanup_on_disconnect, hap, release_all_keys, List.mem_append]
      exact Or.inr (List.mem_map.mpr ⟨k, hk, rfl⟩)
    · intro e2 he2
      exact Option.noConfusion he2
    · simp [cleanup_on_disconnect, hap, release_all_keys]
    · simp [cleanup_on_disconnect, hap, release_all_keys]
    · simp only [cleanup_on_disconnect, hap, release_all_keys, List.mem_append]
      exact Or.inl (List.mem_singleton.mpr rfl)
  · refine ⟨?_, ?_, ?_, ?_, ?_, ?_⟩
    · simp [cleanup_on_disconnect, hap, release_all_keys]
    · intro k hk
      simp only [cleanup_on_disconnect, hap, release_all_keys, List.mem_append]
      refine Or.inr (List.mem_map.mpr ⟨k, ?_, rfl⟩)
      rw [setEngine_active_keys]
      exact hk
    · intro e2 he2
      rcases Option.some.inj he2 with rfl
      simp only [cleanup_on_disconnect, hap, release_all_keys]
      cases e <;> simp [getEngine, setEngine, stop_running]
    · simp [cleanup_on_disconnect, hap, release_all_keys]
    · simp [cleanup_on_disconnect, hap, release_all_keys]
    · simp only [cleanup_on_disconnect, hap, release_all_keys, List.mem_append]
      exact Or.inl (Or.inr (List.mem_singleton.mpr rfl))

/-- Witness for `C1_disconnect_cleanup` at a connected session holding the
accelerate key with the A/D engine running. -/
theorem C1_disconnect_cleanup_witness :
    Emission.keyEmit Key.KEY_W false ∈ (cleanup_on_disconnect sampleSession).2 ∧
      (getEngine (cleanup_on_disconnect sampleSession).1 EngineId.ad).running = false :=
  ⟨(C1_disconnect_cleanup sampleSession).2.1 Key.KEY_W (by decide),
   (C1_disconnect_cleanup sampleSession).2.2.1 EngineId.ad (by decide)⟩

lemma switch_noop (s : DriveDroidServer) (mode : String)
    (h : resolve_mode mode = s.active_pwm) :
    switch_pwm_mode s mode = (s, [], []) := by
  unfold switch_pwm_mode
  rw [if_pos h]

lemma switch_active_pwm (s : DriveDroidServer) (mode : String) :
    (switch_pwm_mode s mode).1.active_pwm = resolve_mode mode := by
  unfold switch_pwm_mode
  split_ifs with h
  · exact h.symm
  · rcases hap : s.active_pwm with _ | e <;> rcases hr : resolve_mode mode with _ | e2 <;>
      simp [hap, hr, setEngine_active_pwm]

lemma switch_calls_le (s : DriveDroidServer) (mode : String) :
    countStops (switch_pwm_mode s mode).2.2 ≤ 1 ∧
      countStarts (switch_pwm_mode s mode).2.2 ≤ 1 := by
  unfold switch_pwm_mode
  split_ifs with h
  · simp [countStops, countStarts]
  · rcases hap : s.active_pwm with _ | e <;> rcases hr : resolve_mode mode with _ | e2 <;>
      simp [hap, hr, countStops, countStarts]

/-- C5 counterexample: in the default post-connect session the A/D engine is
already active, so two consecutive `STEER_MODE "KEYBOARD_AD"` commands
invoke zero engine stops and zero starts in total — not exactly one
stop+start pair as claimed. -/
theorem C5_counterexample :
    countStops ((switch_pwm_mode connected0 "KEYBOARD_AD").2.2 ++
        (switch_pwm_mode (switch_pwm_mode connected0 "KEYBOARD_AD").1
          "KEYBOARD_AD").2.2) = 0 ∧
      countStarts ((switch_pwm_mode connected0 "KEYBOARD_AD").2.2 ++
        (switch_pwm_mode (switch_pwm_mode connected0 "KEYBOARD_AD").1
          "KEYBOARD_AD").2.2) = 0 ∧
      ¬ (countStops ((switch_pwm_mode connected0 "KEYBOARD_AD").2.2 ++
            (switch_pwm_mode (switch_pwm_mode connected0 "KEYBOARD_AD").1
              "KEYBOARD_AD").2.2) = 1 ∧
          countStarts ((switch_pwm_mode connected0 "KEYBOARD_AD").2.2 ++
            (switch_pwm_mode (switch_pwm_mode connected0 "KEYBOARD_AD").1
              "KEYBOARD_AD").2.2) = 1) := by
  decide

/-- C5 (amended): switching to the currently-active mode is a complete
no-op, and any two consecutive identical `STEER_MODE` commands invoke at
most one stop and at most one start in total — the second command always
invokes none (exactly one stop+start pair occurs only when the first
command actually changes engine, e.g. from the arrows engine to A/D). -/
theorem C5_mode_switch_idempotent (s : DriveDroidServer) (mode : String) :
    (resolve_mode mode = s.active_pwm → switch_pwm_mode s mode = (s, [], [])) ∧
      switch_pwm_mode (switch_pwm_mode s mode).1 mode
        = ((switch_pwm_mode s mode).1, [], []) ∧
      countStops ((switch_pwm_mode s mode).2.2 ++
          (switch_pwm_mode (switch_pwm_mode s mode).1 mode).2.2) ≤ 1 ∧
      countStarts ((switch_pwm_mode s mode).2.2 ++
          (switch_pwm_mode (switch_pwm_mode s mode).1 mode).2.2) ≤ 1 := by
  have hsec : switch_pwm_mode (switch_pwm_mode s mode).1 mode
      = ((switch_pwm_mode s mode).1, [], []) :=
    switch_noop (switch_pwm_mode s mode).1 mode (switch_active_pwm s mode).symm
  refine ⟨switch_noop s mode, hsec, ?_, ?_⟩
  · rw [hsec]
    simpa [countStops] using (switch_calls_le s mode).1
  · rw [hsec]
    simpa [countStarts] using (switch_calls_le s mode).2

/-- Witness for `C5_mode_switch_idempotent` at the default post-connect
session with the already-active A/D mode. -/
theorem C5_mode_switch_idempotent_witness :
    switch_pwm_mode connected0 "KEYBOARD_AD" = (connected0, [], []) :=
  (C5_mode_switch_idempotent connected0 "KEYBOARD_AD").1 (by decide)

/-- C9: a command whose action is unrecognized (not STEER / STEER_PWM /
STEER_MODE and not a `KEY_MAP` button), or a button command whose state
string is neither DOWN nor UP, is ignored: no device emission, no state
change (and, the dispatch being total here, it cannot terminate the
session). -/
theorem C9_unknown_ignored (s : DriveDroidServer) (c : Command)
    (h1 : c.action ≠ some "STEER") (h2 : c.action ≠ some "STEER_PWM")
    (h3 : c.action ≠ some "STEER_MODE")
    (h4 : Option.bind c.action KEY_MAP = none ∨
        (c.state ≠ some "DOWN" ∧ c.state ≠ some "UP")) :
    process_command s c = (s, []) := by
  unfold process_command
  rw [if_neg h1, if_neg h2, if_neg h3]
  rcases h4 with h4 | ⟨h5, h6⟩
  · rw [h4]
  · rcases hb : Option.bind c.action KEY_MAP with _ | k
    · rfl
    · simp only
      rw [if_neg h5, if_neg h6]

/-- Witness for `C9_unknown_ignored`: an unknown action, and a known button
action with an unknown state string. -/
theorem C9_unknown_ignored_witness :
    process_command DriveDroidServer.init
        { action := some "JUMP", value := none, state := some "DOWN", mode := none }
      = (DriveDroidServer.init, []) ∧
      process_command DriveDroidServer.init
          { action := some "BRAKE_S", value := none, state := some "HOLD", mode := none }
        = (DriveDroidServer.init, []) :=
  ⟨C9_unknown_ignored DriveDroidServer.init
      { action := some "JUMP", value := none, state := some "DOWN", mode := none }
      (by decide) (by decide) (by decide) (Or.inl (by decide)),
   C9_unknown_ignored DriveDroidServer.init
      { action := some "BRAKE_S", value := none, state := some "HOLD", mode := none }
      (by decide) (by decide) (by decide) (Or.inr ⟨by decide, by decide⟩)⟩

/-- C10: a `STEER_MODE` with any mode string other than the two keyboard
modes stops the active engine (if any) and leaves no engine active; any
STEER_PWM processed while no engine is active is silently dropped with no
state change; no command other than STEER_MODE ever changes the
active-engine reference; and a STEER_MODE with the mode field missing is
processed exactly as mode "KEYBOARD_AD". -/
theorem C10_unrecognized_mode (s : DriveDroidServer) (mode : String)
    (h1 : mode ≠ "KEYBOARD_AD") (h2 : mode ≠ "KEYBOARD_ARROWS") :
    (switch_pwm_mode s mode).1.active_pwm = none ∧
      (∀ e, s.active_pwm = some e →
          (getEngine (switch_pwm_mode s mode).1 e).running = false ∧
            EngineCall.stopCall e ∈ (switch_pwm_mode s mode).2.2) ∧
      (∀ (s2 : DriveDroidServer) (v : ℚ), s2.active_pwm = none →
          process_command s2 (steerPwmCmd v) = (s2, [])) ∧
      (∀ (s2 : DriveDroidServer) (c : Command), c.action ≠ some "STEER_MODE" →
          (process_command s2 c).1.active_pwm = s2.active_pwm) ∧
      (∀ s2 : DriveDroidServer,
          process_command s2 (steerModeCmd none)
            = process_command s2 (steerModeCmd (some "KEYBOARD_AD"))) := by
  have hr : resolve_mode mode = none := by
    unfold resolve_mode
    rw [if_neg h1, if_neg h2]
  refine ⟨?_, ?_, ?_, ?_, ?_⟩
  · rw [switch_active_pwm, hr]
  · intro e he
    have hcond : ¬ (resolve_mode mode = s.active_pwm) := by
      rw [hr, he]
      exact fun hco => Option.noConfusion hco
    unfold switch_pwm_mode
    rw [if_neg hcond, he, hr]
    constructor
    · cases e <;> simp [getEngine, setEngine, stop_running]
    · simp
  · intro s2 v hnone
    unfold process_command
    rw [if_neg (by simp [steerPwmCmd]), if_pos (by simp [steerPwmCmd]), hnone]
  · intro s2 c hc
    unfold process_command
    by_cases hA : c.action = some "STEER"
    · rw [if_pos hA, steer_step_active_pwm]
    · rw [if_neg hA]
      by_cases hB : c.action = some "STEER_PWM"
      · rw [if_pos hB]
        rcases hap : s2.active_pwm with _ | e
        · exact hap
        · dsimp only
          rw [setEngine_active_pwm]
          exact hap
      · rw [if_neg hB, if_neg hc]
        rcases hb : Option.bind c.action KEY_MAP with _ | k
        · rfl
        · dsimp only
          by_cases hD : c.state = some "DOWN"
          · rw [if_pos hD]
            by_cases hIn : k ∈ s2.active_keys
            · rw [if_pos hIn]
            · rw [if_neg hIn]
          · rw [if_neg hD]
            by_cases hU : c.state = some "UP"
            · rw [if_pos hU]
              by_cases hIn : k ∈ s2.active_keys
              · rw [if_pos hIn]
              · rw [if_neg hIn]
            · rw [if_neg hU]
  · intro s2
    rfl

/-- Witness for `C10_unrecognized_mode`: switching the default post-connect
session to GAMEPAD mode deactivates and stops the A/D engine. -/
theorem C10_unrecognized_mode_witness :
    (switch_pwm_mode connected0 "GAMEPAD").1.active_pwm = none ∧
      (getEngine (switch_pwm_mode connected0 "GAMEPAD").1 EngineId.ad).running = false :=
  ⟨(C10_unrecognized_mode connected0 "GAMEPAD" (by decide) (by decide)).1,
   ((C10_unrecognized_mode connected0 "GAMEPAD" (by decide) (by decide)).2.1
      EngineId.ad (by decide)).1⟩
